import Mathlib

/-!
Verification of the SafeSend file-transfer protocol
(`src/python/safesend/{sender,receiver,protocol}.py`,
`src/python/safesend/util/crc32.py`).

The development shallowly embeds the wire format, the sender's
stop-and-wait acknowledgment loop, and the receiver's resume handshake,
chunk-receive loop and finalize step.  Byte strings are `List Nat`
(each element a byte value), machine integers are `Nat`/`Int` with
explicit `% 2^w` where width matters, and the external collaborators
(digest provider, malware scanner) are parameters, following §6 of the
design document which specifies them only at their interface boundary.
-/

/-! ## Wire format (sender.py / receiver.py: `CHUNK_HDR_FMT = "!4s I Q I I"`,
`ACK_FMT = "!4s I"`) -/

/-- Big-endian 4-byte encoding of a 32-bit value, as produced by
`struct.pack` format `I` (network byte order). -/
def u32be (n : Nat) : List Nat :=
  [n / 2 ^ 24 % 256, n / 2 ^ 16 % 256, n / 2 ^ 8 % 256, n % 256]

/-- Big-endian 8-byte encoding of a 64-bit value, as produced by
`struct.pack` format `Q` (network byte order). -/
def u64be (n : Nat) : List Nat :=
  [n / 2 ^ 56 % 256, n / 2 ^ 48 % 256, n / 2 ^ 40 % 256, n / 2 ^ 32 % 256,
   n / 2 ^ 24 % 256, n / 2 ^ 16 % 256, n / 2 ^ 8 % 256, n % 256]

/-- Decode a big-endian byte string back to a natural number. -/
def beToNat (bs : List Nat) : Nat :=
  bs.foldl (fun a b => a * 256 + b) 0

/-- The ASCII bytes of the chunk tag `b"CHNK"`. -/
def chnkTag : List Nat := [0x43, 0x48, 0x4E, 0x4B]

/-- The ASCII bytes of the acknowledgment tag `b"ACK!"`. -/
def ackTag : List Nat := [0x41, 0x43, 0x4B, 0x21]

/-- `struct.pack(CHUNK_HDR_FMT, b"CHNK", seq, offset, length, crc)` with
`CHUNK_HDR_FMT = "!4s I Q I I"`. -/
def packChunkHeader (seq offset length crc : Nat) : List Nat :=
  chnkTag ++ u32be seq ++ u64be offset ++ u32be length ++ u32be crc

/-- `struct.pack(ACK_FMT, b"ACK!", seq)` with `ACK_FMT = "!4s I"`. -/
def packAck (seq : Nat) : List Nat :=
  ackTag ++ u32be seq

/-- `struct.calcsize(CHUNK_HDR_FMT)`. -/
def CHUNK_HDR_SIZE : Nat := (packChunkHeader 0 0 0 0).length

/-- `struct.unpack(CHUNK_HDR_FMT, header)` followed by the receiver's
tag check: yields `(seq, offset, length, crc)` when the buffer has the
header's size and carries the chunk tag. -/
def unpackChunkHeader (bs : List Nat) : Option (Nat × Nat × Nat × Nat) :=
  if bs.length = CHUNK_HDR_SIZE ∧ bs.take 4 = chnkTag then
    some (beToNat ((bs.drop 4).take 4), beToNat ((bs.drop 8).take 8),
          beToNat ((bs.drop 16).take 4), beToNat ((bs.drop 20).take 4))
  else none

/-- `struct.unpack(ACK_FMT, buf)` followed by the sender's tag check:
yields the acknowledged sequence number when the buffer is 8 bytes and
carries the ack tag. -/
def unpackAck (bs : List Nat) : Option Nat :=
  if bs.length = 8 ∧ bs.take 4 = ackTag then some (beToNat (bs.drop 4))
  else none

/-! ## CRC-32 (util/crc32.py)

`crc32_bytes` wraps `zlib.crc32(data) & 0xFFFFFFFF`.  zlib itself is
external to the repository; modelled from the spec: the checksum
provider is a pure, deterministic function `bytes -> uint32` (§6),
realised here as the standard reflected CRC-32 (polynomial `0xEDB88320`)
that `zlib.crc32` computes. -/

/-- One bit-step of the reflected CRC-32: shift right, conditionally
xor the reversed polynomial. -/
def crc32round (c : Nat) : Nat :=
  if c % 2 = 1 then Nat.xor (c / 2) 0xEDB88320 else c / 2

/-- Absorb one byte into the CRC state (xor in the byte, then eight
bit-steps). -/
def crc32update (c b : Nat) : Nat :=
  crc32round (crc32round (crc32round (crc32round
    (crc32round (crc32round (crc32round (crc32round (Nat.xor c b))))))))

/-- `crc32_bytes(data)`: CRC-32 of a byte string, with the usual
initial and final complement. -/
def crc32_bytes (data : List Nat) : Nat :=
  Nat.xor (data.foldl crc32update 0xFFFFFFFF) 0xFFFFFFFF

example : crc32_bytes [] = 0 := by decide
example : CHUNK_HDR_SIZE = 24 := by decide

/-! ## Receiver: resume handshake (receiver.py, `handle_client`, RESUME?/META
section)

The durable state for one logical filename is the partial blob
(`<f>.partial`, a byte string; `[]` when the file is absent, since mode
`"w+b"` creates it empty) and the offset record (`<f>.state`; `none`
when absent). -/

/-- `read_resume_offset`: the recorded offset, `0` when no record
exists (or it fails to parse, which the `Option` already covers). -/
def read_resume_offset (rec : Option Nat) : Nat :=
  rec.getD 0

/-- Outcome of the RESUME?/META section of `handle_client` for one
connection: the offset carried by the `RESUME <offset>` reply, the
partial blob and offset record after the corruption check, and the
session's in-memory `start_offset`. -/
structure ResumeResult where
  reply : Nat
  blob : List Nat
  record : Option Nat
  startOffset : Nat
deriving DecidableEq, Repr

/-- The RESUME?/META section of `handle_client`: read the recorded
offset, send `RESUME <start_offset>`, then (after META, with the
partial file open) if `start_offset` is nonzero and the blob is shorter
than it, truncate the blob to empty, persist offset `0` and reset the
in-memory `start_offset` to `0`.  The reply was already sent with the
value read first. -/
def resumeStep (blob : List Nat) (rec : Option Nat) : ResumeResult :=
  let start := read_resume_offset rec
  if start ≠ 0 ∧ blob.length < start then
    { reply := start, blob := [], record := some 0, startOffset := 0 }
  else
    { reply := start, blob := blob, record := rec, startOffset := start }

/-! ## Receiver: chunk-receive loop (receiver.py, `handle_client`, data
path) -/

/-- A parsed chunk as read off the wire: header fields plus exactly
`length` payload bytes (the receive loop reads until `length` bytes
have arrived, so the payload's length is the header's `length`). -/
structure Chunk where
  seq : Nat
  offset : Nat
  payload : List Nat
  crc : Nat
deriving DecidableEq, Repr

/-- Receiver session state during the receive loop: the partial blob,
the persisted resume offset (`<f>.state`), and `last_acked`
(initialised to `-1`, i.e. "none yet"). -/
structure RecvState where
  blob : List Nat
  resumeOffset : Nat
  lastAcked : Int
deriving DecidableEq, Repr

/-- `out_f.seek(offset); out_f.write(payload)` on a file whose current
contents are `blob`: bytes between the old end and `offset` read as
zero, `payload` overwrites from `offset`, and any bytes beyond
`offset + len(payload)` are preserved. -/
def writeAt (blob : List Nat) (off : Nat) (data : List Nat) : List Nat :=
  blob.take off ++ List.replicate (off - blob.length) 0 ++ data
    ++ blob.drop (off + data.length)

/-- The sequence number the receiver puts in an ack after a checksum
mismatch: `last_acked if last_acked >= 0 else 0xFFFFFFFF`. -/
def ackValue (st : RecvState) : Nat :=
  if st.lastAcked ≥ 0 then st.lastAcked.toNat else 0xFFFFFFFF

/-- One iteration of the receive loop on a parsed header-plus-payload,
given the tag bytes read from the header.  Wrong tag: ignore and
continue (no ack).  Checksum mismatch: do not write, ack the last good
sequence number (or the sentinel).  Match: write the payload at the
header's offset, set `last_acked`, persist `offset + length` as the
resume offset, ack the received sequence number. -/
def stepChunk (st : RecvState) (tag : List Nat) (c : Chunk) :
    RecvState × Option Nat :=
  if tag ≠ chnkTag then
    (st, none)
  else if crc32_bytes c.payload ≠ c.crc then
    (st, some (ackValue st))
  else
    ({ blob := writeAt st.blob c.offset c.payload,
       resumeOffset := c.offset + c.payload.length,
       lastAcked := (c.seq : Int) }, some c.seq)

/-- Run the receive loop over a list of incoming (tag, chunk) events. -/
def runChunks (st : RecvState) : List (List Nat × Chunk) → RecvState
  | [] => st
  | e :: rest => runChunks (stepChunk st e.1 e.2).1 rest

/-- The last event in the list (in processing order) that the receiver
validates: correct tag and matching checksum. -/
def lastValid : List (List Nat × Chunk) → Option Chunk
  | [] => none
  | e :: rest =>
    match lastValid rest with
    | some c => some c
    | none =>
      if e.1 = chnkTag ∧ crc32_bytes e.2.payload = e.2.crc then some e.2
      else none

/-- The receiver state at the start of the receive loop for a fresh
blob with no record: `last_acked = -1`. -/
def initRecvState (blob : List Nat) (resumeOffset : Nat) : RecvState :=
  { blob := blob, resumeOffset := resumeOffset, lastAcked := -1 }

example :
    stepChunk (initRecvState [] 0) chnkTag ⟨0, 0, [], 0⟩ =
      ({ blob := [], resumeOffset := 0, lastAcked := 0 }, some 0) := by
  decide

/-! ## Sender: send-and-wait-for-ack loop (sender.py, `send_file`, inner
`while True`)

Each iteration of the inner loop transmits `header + payload` with
`s.sendall` and then blocks on `s.recv` for an ack.  What `recv`
produces is modelled as a list of events consumed one per iteration:
either a socket timeout or a parsed ack record. -/

/-- What one blocking `recv` for an ack can yield. -/
inductive AckEvent where
  | timeout : AckEvent
  | ack (tag : List Nat) (seq : Nat) : AckEvent
deriving DecidableEq, Repr

/-- How the inner loop ends: a matching ack (`break`), a bad ack tag
(`RuntimeError("Bad ACK tag")`, fatal), or the event list is exhausted
while the loop is still going (the next `recv` would block). -/
inductive WaitOutcome where
  | acked : WaitOutcome
  | badTag : WaitOutcome
  | exhausted : WaitOutcome
deriving DecidableEq, Repr

/-- The inner `while True` of `send_file`, waiting for the ack of
sequence number `seq`; `sends` counts transmissions of
`header + payload` made so far.  Every iteration starts with
`s.sendall(header + payload)`.  On `socket.timeout`, the `except`
branch (whose deadline test only chooses whether to log) returns to the
top of the loop; on an ack with a wrong tag, `RuntimeError` propagates;
on an ack with a different sequence number, `continue` returns to the
top of the loop; on a matching ack, `break`. -/
def ackWait (seq : Nat) : List AckEvent → Nat → WaitOutcome × Nat
  | [], sends => (WaitOutcome.exhausted, sends + 1)
  | AckEvent.timeout :: rest, sends => ackWait seq rest (sends + 1)
  | AckEvent.ack tag s :: rest, sends =>
    if tag ≠ ackTag then (WaitOutcome.badTag, sends + 1)
    else if s ≠ seq then ackWait seq rest (sends + 1)
    else (WaitOutcome.acked, sends + 1)

/-- Waiting through `n` consecutive timeouts never leaves the loop and
transmits once per iteration. -/
theorem ackWait_all_timeouts (seq n sends : Nat) :
    ackWait seq (List.replicate n AckEvent.timeout) sends =
      (WaitOutcome.exhausted, sends + n + 1) := by
  induction n generalizing sends with
  | zero => rfl
  | succ k ih =>
    rw [List.replicate_succ]
    show ackWait seq (List.replicate k AckEvent.timeout) (sends + 1) = _
    rw [ih]
    congr 1
    omega

/-! ## Sender: chunked send loop (sender.py, `send_file`, outer loop)

`CHUNK_SIZE` is `64 * 1024` (protocol.py).  Starting from the
handshake's resume offset, the outer loop runs while `offset < size`;
each iteration reads `min(CHUNK_SIZE, size - offset)` bytes (a read on
a file of `size` bytes at position `offset < size` returns that many,
never zero), sends one chunk, and advances `seq` and `offset`. -/

/-- `CHUNK_SIZE = 64 * 1024` from protocol.py. -/
def CHUNK_SIZE : Nat := 64 * 1024

/-- The `(seq, offset, length)` triples of the chunks the outer loop
sends for a file of `size` bytes, starting at sequence number `seq`
and file position `offset`. -/
def sendChunks (seq offset size : Nat) : List (Nat × Nat × Nat) :=
  if offset < size then
    (seq, offset, min CHUNK_SIZE (size - offset)) ::
      sendChunks (seq + 1) (offset + min CHUNK_SIZE (size - offset)) size
  else []
termination_by size - offset
decreasing_by
  simp only [CHUNK_SIZE] at *
  omega

/-- A message the sender emits on the data path after the handshake. -/
inductive Msg where
  | chunk (seq offset length : Nat) : Msg
  | done : Msg
deriving DecidableEq, Repr

/-- The data-path trace of `send_file` after a handshake that returned
`start`: the chunk messages of the outer loop, then the `DONE` line. -/
def senderTrace (start size : Nat) : List Msg :=
  ((sendChunks 0 start size).map fun t => Msg.chunk t.1 t.2.1 t.2.2)
    ++ [Msg.done]

example : sendChunks 0 5 5 = [] := by
  rw [sendChunks]
  simp
example :
    senderTrace 0 (150 * 1024) =
      [Msg.chunk 0 0 65536, Msg.chunk 1 65536 65536,
       Msg.chunk 2 131072 22528, Msg.done] := by
  rw [senderTrace, sendChunks, sendChunks, sendChunks, sendChunks]
  norm_num [CHUNK_SIZE]

/-! ## Receiver: finalize step (receiver.py, `handle_client`, `DONE`
branch)

The per-filename filesystem footprint the `DONE` branch touches: the
partial blob, the offset record (`<f>.state`), the metadata record
(`<f>.meta`, tracked by presence only — `handle_client` only ever
unlinks it), and the files at the quarantine and delivered
destinations.  The digest provider (`sha256_file`, util/hashing.py, not
under src/) and the malware scanner (`scan_file`, malware_scan.py, not
under src/) are parameters, modelled from the spec: §6 specifies them
as a pure function over file contents and a black-box
`scan(path) -> (is_infected, message)` classifier. -/

/-- The receiver-local durable state for one logical filename. -/
structure FsState where
  partialData : Option (List Nat)
  stateRec : Option Nat
  metaPresent : Bool
  quarFile : Option (List Nat)
  recvFile : Option (List Nat)
deriving DecidableEq, Repr

/-- Result of the `DONE` branch: the filesystem state afterwards, the
`[warn]` log lines emitted, and the control line sent back. -/
structure FinalizeResult where
  fs : FsState
  warnings : List String
  reply : String
deriving DecidableEq, Repr

/-- The `[warn]` log lines of the `DONE` branch: the assembled size is
compared with the declared size and the computed digest with the
declared digest; a mismatch only produces a log line. -/
def warnList (digest : List Nat → String) (expectSize : Nat)
    (expectDigest : String) (data : List Nat) : List String :=
  (if data.length ≠ expectSize then ["size mismatch"] else []) ++
    (if digest data ≠ expectDigest then ["SHA mismatch"] else [])

/-- Filesystem effect of the infected branch:
`partial_path.replace(QUAR_DIR / filename)` after unlinking any prior
quarantined file; the offset and metadata records are untouched. -/
def quarMove (fs : FsState) (data : List Nat) : FsState :=
  { fs with partialData := none, quarFile := some data }

/-- Filesystem effect of the clean branch:
`partial_path.replace(RECEIVED_DIR / filename)` after unlinking any
prior delivered file, then unlink of the offset and metadata records. -/
def cleanMove (fs : FsState) (data : List Nat) : FsState :=
  { fs with partialData := none, recvFile := some data, stateRec := none,
            metaPresent := false }

/-- The `DONE` branch of `handle_client`: log any size or digest
mismatch, run the scanner, then either move the blob to quarantine
(infected) or move it to the delivered directory and delete both
records (clean); in both branches reply `DONE_OK`.  `none` models the
exception path taken when no partial blob exists. -/
def finalize (digest : List Nat → String) (scan : List Nat → Bool × String)
    (expectSize : Nat) (expectDigest : String) (fs : FsState) :
    Option FinalizeResult :=
  match fs.partialData with
  | none => none
  | some data =>
    if (scan data).1 then
      some { fs := quarMove fs data,
             warnings := warnList digest expectSize expectDigest data,
             reply := "DONE_OK" }
    else
      some { fs := cleanMove fs data,
             warnings := warnList digest expectSize expectDigest data,
             reply := "DONE_OK" }

/-- A digest stub for concrete instances: the hex digest is abstract,
any fixed function fits §6's interface. -/
def digestStub (data : List Nat) : String :=
  if data.length % 2 = 0 then "deadbeef" else "cafebabe"

/-- A scanner stub that always reports infected (§8's quarantine
routing scenario). -/
def scanInfected (_data : List Nat) : Bool × String :=
  (true, "EICAR")

/-- A scanner stub that always reports clean. -/
def scanClean (_data : List Nat) : Bool × String :=
  (false, "ok")

example :
    finalize digestStub scanInfected 2 "deadbeef"
      { partialData := some [1, 2], stateRec := some 5, metaPresent := true,
        quarFile := some [9], recvFile := some [7] } =
      some { fs := { partialData := none, stateRec := some 5,
                     metaPresent := true, quarFile := some [1, 2],
                     recvFile := some [7] },
             warnings := [], reply := "DONE_OK" } := by
  rfl

/-- A concrete per-filename filesystem state used in witnesses. -/
def fsEx : FsState :=
  { partialData := some [1, 2], stateRec := some 5, metaPresent := true,
    quarFile := none, recvFile := none }

/-! ## Helper lemmas -/

/-- `u32be` decodes back to the value modulo `2 ^ 32`. -/
theorem beToNat_u32be (n : Nat) : beToNat (u32be n) = n % 2 ^ 32 := by
  simp only [beToNat, u32be, List.foldl]
  omega

/-- `u64be` decodes back to the value modulo `2 ^ 64`. -/
theorem beToNat_u64be (n : Nat) : beToNat (u64be n) = n % 2 ^ 64 := by
  simp only [beToNat, u64be, List.foldl]
  omega

/-- Parsing an encoded chunk header recovers the four fields (reduced
to their wire widths). -/
theorem unpack_pack_chunkHeader (a b c d : Nat) :
    unpackChunkHeader (packChunkHeader a b c d) =
      some (a % 2 ^ 32, b % 2 ^ 64, c % 2 ^ 32, d % 2 ^ 32) := by
  have h : unpackChunkHeader (packChunkHeader a b c d) =
      some (beToNat (u32be a), beToNat (u64be b), beToNat (u32be c),
        beToNat (u32be d)) := rfl
  rw [h, beToNat_u32be, beToNat_u64be, beToNat_u32be, beToNat_u32be]

/-- Parsing an encoded ack recovers the sequence number (reduced to its
wire width). -/
theorem unpack_pack_ack (s : Nat) :
    unpackAck (packAck s) = some (s % 2 ^ 32) := by
  have h : unpackAck (packAck s) = some (beToNat (u32be s)) := rfl
  rw [h, beToNat_u32be]

/-- A receive-loop step on a chunk that fails validation (wrong tag or
checksum mismatch) leaves the session state unchanged. -/
theorem stepChunk_invalid (st : RecvState) (tag : List Nat) (c : Chunk)
    (h : ¬(tag = chnkTag ∧ crc32_bytes c.payload = c.crc)) :
    (stepChunk st tag c).1 = st := by
  by_cases h1 : tag = chnkTag
  · have h2 : crc32_bytes c.payload ≠ c.crc := fun hc => h ⟨h1, hc⟩
    simp [stepChunk, h1, h2]
  · simp [stepChunk, h1]

/-! ## Claims -/

/-- Claim C1 (code bug): for a connection whose `RESUME?` names a
filename with a 50-byte partial blob but a recorded offset of 100, the
receiver does truncate the blob to empty and reset the record to 0, but
the `RESUME` reply it already sent carries the stale offset 100, not 0:
`handle_client` sends `RESUME <start_offset>` before reading META and
before the corruption check, so the self-healing reset never reaches
the sender, which then resumes at offset 100 against an empty blob. -/
theorem c1_resume_reply_carries_stale_offset :
    resumeStep (List.replicate 50 7) (some 100) =
      { reply := 100, blob := [], record := some 0, startOffset := 0 } ∧
    (resumeStep (List.replicate 50 7) (some 100)).reply ≠ 0 := by
  decide

/-- Claim C2 counterexample: there is no retry ceiling.  The claim
asserts a bound `B` such that every run of the ack-wait loop either
fails fatally (the loop's only raised error is the bad-ack-tag
`RuntimeError`) or transmits at most `B` times; for any candidate `B`,
a run of `B + 1` consecutive timeouts transmits `B + 2` times and is
still looping, never fatal. -/
theorem c2_no_retry_ceiling :
    ¬∃ B : Nat, ∀ n : Nat,
      (ackWait 0 (List.replicate n AckEvent.timeout) 0).1 =
          WaitOutcome.badTag ∨
        (ackWait 0 (List.replicate n AckEvent.timeout) 0).2 ≤ B := by
  rintro ⟨B, hB⟩
  have h := hB (B + 1)
  rw [ackWait_all_timeouts] at h
  simp at h
  omega

/-- Claim C2 (amended): on repeated receive timeouts the sender
retransmits the identical header+payload without any bound: after `n`
consecutive timeouts it has transmitted `n + 1` times and is still in
the loop; there is no retry ceiling and no fatal transfer error — the
`deadline` in `send_file` only decides whether a `[retx]` line is
logged before retransmitting. -/
theorem c2_timeouts_retransmit_unbounded (seq n : Nat) :
    ackWait seq (List.replicate n AckEvent.timeout) 0 =
      (WaitOutcome.exhausted, n + 1) := by
  rw [ackWait_all_timeouts]
  norm_num

/-- Claim C3 counterexample: the encoded chunk header is 24 bytes, not
21 — `"!4s I Q I I"` packs 4 + 4 + 8 + 4 + 4 bytes. -/
theorem c3_header_is_not_21_bytes :
    (packChunkHeader 0 0 0 0).length = 24 ∧
    (packChunkHeader 0 0 0 0).length ≠ 21 := by
  decide

/-- Claim C3 (amended): the encoded binary chunk header is exactly 24
bytes long, big-endian — the 4-byte tag `"CHNK"`, a 4-byte sequence
number, an 8-byte offset, a 4-byte length and a 4-byte checksum, each
field recoverable by parsing — and the encoded binary ack is exactly 8
bytes, the 4-byte tag `"ACK!"` followed by a 4-byte sequence number. -/
theorem c3_wire_format (seq off len crc s : Nat) :
    (packChunkHeader seq off len crc).length = 24 ∧
    (packAck s).length = 8 ∧
    unpackChunkHeader (packChunkHeader seq off len crc) =
      some (seq % 2 ^ 32, off % 2 ^ 64, len % 2 ^ 32, crc % 2 ^ 32) ∧
    unpackAck (packAck s) = some (s % 2 ^ 32) :=
  ⟨rfl, rfl, unpack_pack_chunkHeader seq off len crc, unpack_pack_ack s⟩

/-- Claim C4 counterexample: after chunk 0 has been validated
(`last_acked = 0`), a corrupt chunk that itself carries sequence
number 0 is answered with an ack carrying sequence number 0 — the
corrupt chunk's own sequence number — because the last-known-good
sequence number coincides with it. -/
theorem c4_corrupt_duplicate_acked_with_own_seq :
    crc32_bytes ([] : List Nat) ≠ 1 ∧
    (⟨0, 0, [], 1⟩ : Chunk).seq = 0 ∧
    (stepChunk (runChunks (initRecvState [] 0) [(chnkTag, ⟨0, 0, [], 0⟩)])
        chnkTag ⟨0, 0, [], 1⟩).2 = some 0 := by
  decide

/-- Claim C4 (amended): for every received chunk whose computed CRC32
differs from the checksum declared in its header, the receiver leaves
the partial blob, the persisted resume offset and the last-known-good
sequence number unchanged and replies with an ack carrying the
last-known-good sequence number, or the all-bits-set sentinel
`0xFFFFFFFF` if no chunk has been acknowledged yet, and continues the
receive loop; that ack carries the corrupt chunk's own sequence number
exactly when the corrupt chunk repeats the last acknowledged one. -/
theorem c4_corrupt_chunk_rejected (st : RecvState) (c : Chunk)
    (h : crc32_bytes c.payload ≠ c.crc) :
    stepChunk st chnkTag c = (st, some (ackValue st)) := by
  simp [stepChunk, h]

/-- Witness for `c4_corrupt_chunk_rejected` at a concrete corrupt
chunk. -/
theorem c4_witness :
    crc32_bytes ([] : List Nat) ≠ 1 ∧
    stepChunk (initRecvState [] 0) chnkTag ⟨0, 0, [], 1⟩ =
      (initRecvState [] 0, some (ackValue (initRecvState [] 0))) :=
  ⟨by decide, c4_corrupt_chunk_rejected (initRecvState [] 0) ⟨0, 0, [], 1⟩
    (by decide)⟩

/-- Claim C5: throughout the receive loop, the persisted resume offset
equals `offset + length` of the most recently validated (and therefore
acknowledged and written) chunk, or the value it held when the loop
started if no chunk has yet been validated; no other event writes a
resume offset. -/
theorem c5_resume_offset_tracks_last_valid (st : RecvState)
    (evs : List (List Nat × Chunk)) :
    (runChunks st evs).resumeOffset =
      (lastValid evs).elim st.resumeOffset
        (fun c => c.offset + c.payload.length) := by
  induction evs generalizing st with
  | nil => rfl
  | cons e rest ih =>
    show (runChunks (stepChunk st e.1 e.2).1 rest).resumeOffset = _
    rw [ih]
    cases hl : lastValid rest with
    | some c =>
      have hcons : lastValid (e :: rest) = some c := by
        simp [lastValid, hl]
      rw [hcons]
      rfl
    | none =>
      by_cases hv : e.1 = chnkTag ∧ crc32_bytes e.2.payload = e.2.crc
      · have hcons : lastValid (e :: rest) = some e.2 := by
          simp [lastValid, hl, hv]
        rw [hcons]
        simp [stepChunk, hv.1, hv.2]
      · have hcons : lastValid (e :: rest) = none := by
          simp only [lastValid, hl]
          simp [hv]
        rw [hcons, stepChunk_invalid st e.1 e.2 hv]

/-- Claim C6 counterexample: an ack carrying a different sequence
number does cause a retransmission.  Waiting for the ack of sequence
number 0, the run that sees a mismatched ack (sequence 5) and then the
matching ack transmits the chunk twice — `continue` returns to the top
of the `while True` loop, whose first statement is
`s.sendall(header + payload)` — where the claim's behaviour would
transmit once. -/
theorem c6_mismatched_ack_causes_retransmit :
    ackWait 0 [AckEvent.ack ackTag 5, AckEvent.ack ackTag 0] 0 =
      (WaitOutcome.acked, 2) ∧
    (ackWait 0 [AckEvent.ack ackTag 5, AckEvent.ack ackTag 0] 0).2 ≠ 1 := by
  decide

/-- Claim C6 (amended): when the sender, while waiting for the ack of
its current sequence number, receives an ack carrying a different
sequence number, it discards that ack, retransmits the identical
header+payload, and keeps waiting; it does not abort and the mismatch
is not treated as fatal. -/
theorem c6_mismatched_ack_discarded_and_retransmitted
    (seq s sends : Nat) (rest : List AckEvent) (h : s ≠ seq) :
    ackWait seq (AckEvent.ack ackTag s :: rest) sends =
      ackWait seq rest (sends + 1) := by
  simp [ackWait, h]

/-- Witness for `c6_mismatched_ack_discarded_and_retransmitted` at a
concrete mismatched ack. -/
theorem c6_witness :
    (5 : Nat) ≠ 0 ∧
    ackWait 0 [AckEvent.ack ackTag 5, AckEvent.ack ackTag 0] 0 =
      ackWait 0 [AckEvent.ack ackTag 0] 1 :=
  ⟨by decide, c6_mismatched_ack_discarded_and_retransmitted 0 5 0
    [AckEvent.ack ackTag 0] (by decide)⟩

/-- Claim C8: if the resume offset returned by the handshake equals the
local file's size, the sender's chunk loop sends zero chunks and the
data-path trace goes directly to the completion signal `DONE`. -/
theorem c8_resume_at_eof_sends_no_chunks (size : Nat) :
    sendChunks 0 size size = [] ∧ senderTrace size size = [Msg.done] := by
  have h : sendChunks 0 size size = [] := by
    rw [sendChunks]
    simp
  exact ⟨h, by simp [senderTrace, h]⟩

/-- Claim C7: when the malware scanner reports the assembled file as
infected, the receiver moves the blob to the quarantine location
(overwriting whatever was there, for any prior state of that location),
leaves the delivered location untouched, and still replies `DONE_OK`. -/
theorem c7_infected_routes_to_quarantine (digest : List Nat → String)
    (scan : List Nat → Bool × String) (es : Nat) (ed : String)
    (fs : FsState) (data : List Nat)
    (hp : fs.partialData = some data) (hinf : (scan data).1 = true) :
    ∃ r, finalize digest scan es ed fs = some r ∧
      r.fs.quarFile = some data ∧
      r.fs.recvFile = fs.recvFile ∧
      r.fs.partialData = none ∧
      r.reply = "DONE_OK" := by
  refine ⟨{ fs := quarMove fs data, warnings := warnList digest es ed data,
            reply := "DONE_OK" }, ?_, rfl, rfl, rfl, rfl⟩
  simp [finalize, hp, hinf]

/-- Witness for `c7_infected_routes_to_quarantine` with the
always-infected scanner stub. -/
theorem c7_witness :
    fsEx.partialData = some [1, 2] ∧ (scanInfected [1, 2]).1 = true ∧
    (∃ r, finalize digestStub scanInfected 2 "deadbeef" fsEx = some r ∧
      r.fs.quarFile = some [1, 2] ∧
      r.fs.recvFile = fsEx.recvFile ∧
      r.fs.partialData = none ∧
      r.reply = "DONE_OK") :=
  ⟨rfl, rfl, c7_infected_routes_to_quarantine digestStub scanInfected 2
    "deadbeef" fsEx [1, 2] rfl rfl⟩

/-- Claim C9: at finalize, a mismatch between the assembled size and
the declared size, or between the computed digest and the declared
digest, is logged but non-fatal: the receiver still consults the
scanner's verdict, still routes the file to delivery or quarantine
accordingly, and still replies `DONE_OK`. -/
theorem c9_finalize_mismatch_nonfatal (digest : List Nat → String)
    (scan : List Nat → Bool × String) (es : Nat) (ed : String)
    (fs : FsState) (data : List Nat)
    (hp : fs.partialData = some data)
    (hm : data.length ≠ es ∨ digest data ≠ ed) :
    ∃ r, finalize digest scan es ed fs = some r ∧
      r.reply = "DONE_OK" ∧
      r.warnings ≠ [] ∧
      (if (scan data).1 then r.fs.quarFile = some data
       else r.fs.recvFile = some data) := by
  have hw : warnList digest es ed data ≠ [] := by
    rcases hm with hm | hm <;> simp [warnList, hm]
  by_cases hs : (scan data).1 = true
  · refine ⟨{ fs := quarMove fs data, warnings := warnList digest es ed data,
              reply := "DONE_OK" }, ?_, rfl, hw, ?_⟩
    · simp [finalize, hp, hs]
    · simp [hs, quarMove]
  · refine ⟨{ fs := cleanMove fs data, warnings := warnList digest es ed data,
              reply := "DONE_OK" }, ?_, rfl, hw, ?_⟩
    · simp [finalize, hp, hs]
    · simp [hs, cleanMove]

/-- Witness for `c9_finalize_mismatch_nonfatal` at a concrete size
mismatch with the clean scanner stub. -/
theorem c9_witness :
    ([1, 2] : List Nat).length ≠ 5 ∧
    (∃ r, finalize digestStub scanClean 5 "deadbeef" fsEx = some r ∧
      r.reply = "DONE_OK" ∧
      r.warnings ≠ [] ∧
      (if (scanClean [1, 2]).1 then r.fs.quarFile = some [1, 2]
       else r.fs.recvFile = some [1, 2])) :=
  ⟨by decide, c9_finalize_mismatch_nonfatal digestStub scanClean 5 "deadbeef"
    fsEx [1, 2] rfl (Or.inl (by decide))⟩

/-- Claim C10: the offset record (`.state`) and the metadata record
(`.meta`) survive an infected verdict unchanged — only the
clean-delivery branch deletes them — while the partial blob itself is
moved away in both branches; so after a quarantine a stale, possibly
nonzero resume offset remains recorded for a filename whose blob is
gone. -/
theorem c10_records_survive_quarantine (digest : List Nat → String)
    (scan : List Nat → Bool × String) (es : Nat) (ed : String)
    (fs : FsState) (data : List Nat)
    (hp : fs.partialData = some data) :
    ∃ r, finalize digest scan es ed fs = some r ∧
      r.fs.stateRec = (if (scan data).1 then fs.stateRec else none) ∧
      r.fs.metaPresent = (if (scan data).1 then fs.metaPresent else false) ∧
      r.fs.partialData = none := by
  by_cases hs : (scan data).1 = true
  · refine ⟨{ fs := quarMove fs data, warnings := warnList digest es ed data,
              reply := "DONE_OK" }, ?_, ?_, ?_, rfl⟩
    · simp [finalize, hp, hs]
    · simp [hs, quarMove]
    · simp [hs, quarMove]
  · refine ⟨{ fs := cleanMove fs data, warnings := warnList digest es ed data,
              reply := "DONE_OK" }, ?_, ?_, ?_, rfl⟩
    · simp [finalize, hp, hs]
    · simp [hs, cleanMove]
    · simp [hs, cleanMove]

/-- Witness for `c10_records_survive_quarantine` with the
always-infected scanner stub and a nonzero recorded offset. -/
theorem c10_witness :
    fsEx.partialData = some [1, 2] ∧ fsEx.stateRec = some 5 ∧
    (∃ r, finalize digestStub scanInfected 2 "deadbeef" fsEx = some r ∧
      r.fs.stateRec = (if (scanInfected [1, 2]).1 then fsEx.stateRec
        else none) ∧
      r.fs.metaPresent = (if (scanInfected [1, 2]).1 then fsEx.metaPresent
        else false) ∧
      r.fs.partialData = none) :=
  ⟨rfl, rfl, c10_records_survive_quarantine digestStub scanInfected 2
    "deadbeef" fsEx [1, 2] rfl⟩
